import Mathlib

/-!
Verification of the psyCore instruction-set simulator (Python sources
`cpu.py` and `instruction.py` of the emulator) against its natural-language
specification.  The Python code is shallowly embedded: Python `int` becomes
`Int`, strings become `List Char`, and code paths that raise a Python
exception are modelled with an explicit error value.
-/

namespace PsyCore

/-- Python runtime exceptions raised by the embedded code paths.  The
payload names the offending attribute or function. -/
inductive PyError where
  | attrError (a : String)
  | typeErr (f : String)
  deriving DecidableEq

/-- Constants pool of `cpu.py`: size of the instruction memory in words. -/
def INSTRUCTION_MEM_SIZE : Nat := 1024

/-- Constants pool of `cpu.py`: size of the data memory in words. -/
def DATA_MEM_SIZE : Nat := 1024

/-- Constants pool of `cpu.py`: number of work registers `W`. -/
def N_WORK_REGS : Nat := 16

/-- Architectural state of the `cpu` object: exactly the attributes assigned
in `cpu.__init__` of `cpu.py`. -/
structure Cpu where
  PC : Int
  iMem : List String
  dMem : List Int
  resetAddr : Int
  itAddr : Int
  W : List Int
  statReg : Int
  isTrapped : Bool
  stack : List Int
  nCyclesLost : Int
  deriving DecidableEq

/-- `cpu.__init__`: the freshly constructed core. -/
def cpuInit : Cpu :=
  { PC := 0
  , iMem := List.replicate INSTRUCTION_MEM_SIZE "NOP"
  , dMem := List.replicate DATA_MEM_SIZE 0
  , resetAddr := 0
  , itAddr := 1000
  , W := List.replicate N_WORK_REGS 0
  , statReg := 0
  , isTrapped := false
  , stack := []
  , nCyclesLost := 0 }

/-- `cpu.__trap_pcOutOfRange()`: sets the trap flag (the print has no
architectural effect). -/
def trapPcOutOfRange (s : Cpu) : Cpu :=
  { s with isTrapped := true }

/-- `cpu._setPC(newPC)`: when not trapped, an out-of-range target (the
source guard compares against `DATA_MEM_SIZE`) invokes the trap, otherwise
the PC is committed; when trapped the whole body is skipped. -/
def setPC (s : Cpu) (newPC : Int) : Cpu :=
  if s.isTrapped then s
  else if newPC < 0 ∨ (DATA_MEM_SIZE : Int) ≤ newPC then trapPcOutOfRange s
  else { s with PC := newPC }

/-- `cpu._pcJump(delta)`: relative jump via `_setPC`. -/
def pcJump (s : Cpu) (delta : Int) : Cpu :=
  setPC s (s.PC + delta)

/-- Integer-valued attribute lookup on the `cpu` object: exactly the
integer attributes assigned in `cpu.__init__`.  Any other name is absent
and reading it raises `AttributeError` in Python. -/
def Cpu.getIntAttr (s : Cpu) (a : String) : Option Int :=
  if a = "PC" then some s.PC
  else if a = "resetAddr" then some s.resetAddr
  else if a = "itAddr" then some s.itAddr
  else if a = "statReg" then some s.statReg
  else if a = "nCyclesLost" then some s.nCyclesLost
  else none

/-- Outcome of calling a Python method on the `cpu` object: the object's
state once the call returns or the exception propagates, plus the
exception, if any was raised. -/
structure PyOutcome where
  state : Cpu
  err : Option PyError
  deriving DecidableEq

/-- `cpu.reset()` of `cpu.py`.  Its body is
`self.PC = self.startAddr; self.W = [0]*16; self.stack = []; self.isTrapped = False`.
The very first statement reads `self.startAddr`, but the constructor only
ever defines `resetAddr`, so on the real object Python raises
`AttributeError` before any assignment executes and the object is left
unchanged.  The successful branch is kept for faithfulness to the written
assignments (note it never touches `statReg` or `nCyclesLost`). -/
def reset (s : Cpu) : PyOutcome :=
  match s.getIntAttr "startAddr" with
  | none => ⟨s, some (.attrError "startAddr")⟩
  | some v =>
      ⟨{ s with PC := v
              , W := List.replicate N_WORK_REGS 0
              , stack := []
              , isTrapped := false }, none⟩

/-- Keys of `Instruction._instructionSet` from `instruction.py`, in
declaration order. -/
def instructionSetKeys : List String :=
  ["MOV", "JZ", "JE", "REPEAT", "ADD", "SUB", "SCTX", "RCTX",
   "LOC", "MEET", "NOP", "RESET"]

/-- The per-mnemonic initializer methods actually defined in class
`Instruction` of `instruction.py`, with the `(mnemonic, cycles, nArgs)`
triple each one assigns.  Note `__init_NOP` assigns `self.mnemonic = "MOV"`
and `__init_MOV` assigns `self.cycles = 2` unconditionally.  For the keys
ADD, SUB, SCTX, RCTX, LOC, MEET and RESET no `__init_*` method exists in
the file, so the lookup is `none`. -/
def initMethod : String → Option (String × Nat × Nat)
  | "NOP" => some ("MOV", 1, 0)
  | "JZ" => some ("JZ", 2, 0)
  | "JE" => some ("JE", 2, 0)
  | "REPEAT" => some ("REPEAT", 1, 0)
  | "MOV" => some ("MOV", 2, 0)
  | _ => none

/-- `Instruction.__init__(text)`: after the default fields, it builds the
`_instructionSet` dictionary whose values are `self.__init_<KEY>` bound
methods.  Evaluating the first value whose method does not exist raises
`AttributeError`, so constructing an `Instruction` never reaches
`_decode`. -/
def instructionNew (_text : List Char) : Except PyError Unit :=
  match instructionSetKeys.find? (fun k => (initMethod k).isNone) with
  | some k => .error (.attrError ("__init_" ++ k))
  | none => .ok ()

/-- Module-level `fromStr(self, text)` of `instruction.py`: a plain
function of two positional parameters (the `self` is vestigial).  With the
wrong arity Python raises `TypeError`; with two arguments its body
constructs `Instruction(text)`. -/
def fromStr (args : List (List Char)) : Except PyError Unit :=
  match args with
  | [_, text] => instructionNew text
  | _ => .error (.typeErr "fromStr")

/-- `cpu.step()` of `cpu.py`.  Its whole body is
`instr = instruction.fromStr("NOP")` followed by `pass`: it never inspects
`isTrapped` and never writes any attribute.  The call passes a single
argument to the two-parameter `fromStr`, so every invocation raises
`TypeError` and leaves the core unchanged. -/
def step (s : Cpu) : PyOutcome :=
  match fromStr ["NOP".toList] with
  | .error e => ⟨s, some e⟩
  | .ok _ => ⟨s, none⟩

/-- States of the finite-state machine inside `cpu._asmReaderFormatLine`
(the `END` member is declared in the source but never entered). -/
inductive FmtState where
  | INIT
  | MNEMONIC
  | ARG
  deriving DecidableEq

/-- The character loop of `cpu._asmReaderFormatLine`: `st` is the current
FSM state, `quota` the `spaceQuota` counter and `acc` the accumulated
output.  In state ARG a comma resets the quota to 1, is copied, and when
the following character exists and is not a space an extra space is
emitted (without consuming the quota); a space is copied only while the
quota is positive; anything else is copied verbatim. -/
def fmtLoop : FmtState → Nat → List Char → List Char → List Char
  | _, _, acc, [] => acc
  | .INIT, quota, acc, c :: rest =>
      if c = ' ' then fmtLoop .INIT quota acc rest
      else fmtLoop .MNEMONIC quota (acc ++ [c]) rest
  | .MNEMONIC, quota, acc, c :: rest =>
      if c = ' ' then fmtLoop .ARG quota (acc ++ [c]) rest
      else fmtLoop .MNEMONIC quota (acc ++ [c]) rest
  | .ARG, quota, acc, c :: rest =>
      if c = ',' then
        match rest with
        | [] => fmtLoop .ARG 1 (acc ++ [c]) rest
        | c2 :: _ =>
            if c2 = ' ' then fmtLoop .ARG 1 (acc ++ [c]) rest
            else fmtLoop .ARG 1 (acc ++ [c] ++ [' ']) rest
      else if c = ' ' then
        if 0 < quota then fmtLoop .ARG (quota - 1) (acc ++ [c]) rest
        else fmtLoop .ARG quota acc rest
      else fmtLoop .ARG quota (acc ++ [c]) rest

/-- The trailing-whitespace removal loop of `cpu._asmReaderFormatLine`:
truncate after the last non-space character; if no such character exists
the string is returned unchanged (the loop never breaks). -/
def trimTrail (l : List Char) : List Char :=
  if l.all (· = ' ') then l
  else (l.reverse.dropWhile (· = ' ')).reverse

/-- Python `str.upper()` restricted to one character: ASCII lower-case
letters are mapped to upper case (this agrees with Python on the parser's
allowed alphabet). -/
def pyUpperChar (c : Char) : Char :=
  if 'a' ≤ c ∧ c ≤ 'z' then Char.ofNat (c.toNat - 32) else c

/-- `cpu._asmReaderFormatLine(line)`: empty input short-circuits to the
empty string; otherwise the FSM loop runs from state INIT with quota 0,
trailing spaces are trimmed and the result is upper-cased. -/
def asmReaderFormatLine (line : List Char) : List Char :=
  match line with
  | [] => []
  | _ :: _ => (trimTrail (fmtLoop .INIT 0 [] line)).map pyUpperChar

/-- Module-level `_asmReaderIsAlpha(s)` of `instruction.py`: the first
character is a letter (compared through `ord`). -/
def asmReaderIsAlpha (c : Char) : Bool :=
  (decide ('A'.toNat ≤ c.toNat) && decide (c.toNat ≤ 'Z'.toNat)) ||
    (decide ('a'.toNat ≤ c.toNat) && decide (c.toNat ≤ 'z'.toNat))

/-- Module-level `_asmReaderIsDigit(s)` of `instruction.py`: the first
character is a decimal digit (compared through `ord`). -/
def asmReaderIsDigit (c : Char) : Bool :=
  decide ('0'.toNat ≤ c.toNat) && decide (c.toNat ≤ '9'.toNat)

/-- `Instruction._asmReaderHasLabel(line)` of `instruction.py`.  The
empty-line guard reads `if (line == "") : False` — a bare expression with
no `return` — so an empty line falls through to the loop, which does not
run, and the initial `hasLabel = True` is returned.  For a nonempty line
the first loop iteration evaluates `Instruction._asmReaderIsDigit(c)`, but
`_asmReaderIsDigit` is a module-level function, not an attribute of class
`Instruction`, so Python raises `AttributeError`. -/
def asmReaderHasLabel (line : List Char) : Except PyError Bool :=
  match line with
  | [] => .ok true
  | _ :: _ => .error (.attrError "_asmReaderIsDigit")

/-- Result tuple of `Instruction._asmReaderParse`: the source returns a
4-tuple `("", "", [], "")` on the empty line and a 5-tuple
`(address, label, mnemonic, args, comment)` at the end of the function. -/
inductive ParseOut where
  | quad (label address : List Char) (args : List (List Char)) (comment : List Char)
  | quint (address label mnemonic : List Char) (args : List (List Char)) (comment : List Char)
  deriving DecidableEq

/-- `Instruction._asmReaderParse(line)` of `instruction.py`.  The empty
line returns the 4-tuple `("", "", [], "")`.  Every nonempty line first
calls `Instruction._asmReaderHasLabel(line)`, which raises
`AttributeError` (see `asmReaderHasLabel`); even if it did not, the FSM
below it evaluates `Instruction._asmReaderIsDigit(c)` in state INIT and
transitions to the undeclared enum member `fsmState.ARG` on the space
after the mnemonic, both of which also raise `AttributeError`. -/
def asmReaderParse (line : List Char) : Except PyError ParseOut :=
  match line with
  | [] => .ok (.quad [] [] [] [])
  | _ :: _ =>
      match asmReaderHasLabel line with
      | .error e => .error e
      | .ok _ => .error (.attrError "_asmReaderIsDigit")

/-- The character filter at the top of `Instruction._decode` of
`instruction.py`: a character passes only if it is a letter, a digit, or
one of `[ ] ( ) _ ,`.  Whitespace, `:`, `.` and `;` all fail it, although
the docstring of `_decode` lists whitespace as valid.  (The enclosing
method is itself unreachable: it iterates over `self.input`, an attribute
never assigned, and calls the undefined `self._decodeIsAlpha`.) -/
def decodeCharOk (c : Char) : Bool :=
  asmReaderIsAlpha c || asmReaderIsDigit c ||
    (c = '[' || c = ']' || c = '(' || c = ')' || c = '_' || c = ',')

/-- The character-validation loop of module-level `_asmReaderSyntaxCheck`
of `instruction.py`: `false` at the first character that is not a letter,
a digit, a space, or one of `: , . ( ) [ ] _` — note `;` is NOT accepted. -/
def scCharLoop : List Char → Bool
  | [] => true
  | c :: rest =>
      if asmReaderIsAlpha c then scCharLoop rest
      else if asmReaderIsDigit c then scCharLoop rest
      else if c = ' ' then scCharLoop rest
      else if c = ':' || c = ',' || c = '.' || c = '(' || c = ')' ||
              c = '[' || c = ']' || c = '_' then scCharLoop rest
      else false

/-- States of the second FSM loop of `_asmReaderSyntaxCheck`. -/
inductive ScState where
  | INIT
  | LABEL
  | LABEL_OR_MNEM
  | ADDR
  | ADDR_HEX
  | MNEMONIC
  deriving DecidableEq

/-- The second loop of `_asmReaderSyntaxCheck`: only states INIT and LABEL
have any branches; in state INIT a character that is none of `0`, digit,
`_`, letter or space returns `False`; when the loop ends the function has
no final `return` statement, so Python returns `None` — modelled as
`none`. -/
def scLoop : ScState → List Char → Option Bool
  | _, [] => none
  | .INIT, c :: rest =>
      if c = '0' then scLoop .ADDR_HEX rest
      else if asmReaderIsDigit c then scLoop .ADDR rest
      else if c = '_' then scLoop .LABEL rest
      else if asmReaderIsAlpha c then scLoop .LABEL_OR_MNEM rest
      else if c = ' ' then scLoop .INIT rest
      else some false
  | .LABEL, c :: rest =>
      if asmReaderIsAlpha c then scLoop .LABEL rest
      else if asmReaderIsDigit c then scLoop .LABEL rest
      else if c = ' ' then scLoop .LABEL rest
      else if c = ':' then scLoop .MNEMONIC rest
      else scLoop .LABEL rest
  | st, _ :: rest => scLoop st rest

/-- Module-level `_asmReaderSyntaxCheck(line)` of `instruction.py`:
`some false` for the empty line or on a character outside the accepted
set; otherwise the FSM loop runs and the function falls off its end,
returning Python `None` unless the FSM returned `False` early. -/
def asmReaderSyntaxCheck (line : List Char) : Option Bool :=
  match line with
  | [] => some false
  | _ :: _ =>
      if scCharLoop line then scLoop .INIT line
      else some false

/-- Modelled from the spec: the state of one lock-id of the
Synchronization Domain shared by `n` cores.  The LOC instruction is only
declared in the registry of `instruction.py` (key `"LOC"`); its
initializer and execute handler are missing from the sources, so the lock
semantics are modelled from §3 and §5 of the spec: `locks: mapping from
lock-id to (owner core-id or none)`, and each core records whether it has
acquired the lock (what it "reports"). -/
structure SyncDomain (n : Nat) where
  owner : Option (Fin n)
  acquired : Fin n → Bool

/-- Modelled from the spec: one core's LOC attempt within a tick.  A core
that already holds the lock keeps it; a core still waiting re-checks
availability and acquires the lock exactly when no core owns it, otherwise
it stays blocked for this cycle. -/
def locStep {n : Nat} (s : SyncDomain n) (i : Fin n) : SyncDomain n :=
  if s.acquired i then s
  else
    match s.owner with
    | none =>
        { owner := some i
        , acquired := fun j => if j = i then true else s.acquired j }
    | some _ => s

/-- Modelled from the spec: one global cycle tick, stepping the cores in
ascending core-id order (§5 requires a fixed order so lock grants are
deterministic). -/
def locTick {n : Nat} (s : SyncDomain n) : SyncDomain n :=
  (List.finRange n).foldl locStep s

/-- Modelled from the spec: the initial Synchronization Domain state for
one lock-id — no owner, no core reporting acquisition. -/
def locInit (n : Nat) : SyncDomain n :=
  { owner := none, acquired := fun _ => false }

/-- A Synchronization Domain state reachable from the initial state by
whole ticks. -/
def locReach {n : Nat} (s : SyncDomain n) : Prop :=
  ∃ k : Nat, s = locTick^[k] (locInit n)

/-- The ownership invariant: every core reporting acquisition is the
recorded owner. -/
def lockInv {n : Nat} (s : SyncDomain n) : Prop :=
  ∀ i : Fin n, s.acquired i = true → s.owner = some i

/-- A sample core state used to evaluate the broken `reset` at a concrete
input: trapped, with a nonzero `statReg` and a `PC` away from
`resetAddr`. -/
def cpuSample : Cpu :=
  { cpuInit with PC := 5, statReg := 7, isTrapped := true }

theorem lockInv_locStep {n : Nat} (s : SyncDomain n) (i : Fin n)
    (h : lockInv s) : lockInv (locStep s i) := by
  intro j hj
  unfold locStep at hj ⊢
  by_cases hi : s.acquired i = true
  · simpa [hi] using h j (by simpa [hi] using hj)
  · simp only [hi] at hj ⊢
    cases how : s.owner with
    | none =>
        simp only [Bool.false_eq_true, if_neg, how] at hj ⊢
        by_cases hji : j = i
        · simp [hji]
        · simp only [hji, if_false] at hj
          exact absurd (h j hj) (by simp [how])
    | some o =>
        simp only [how] at hj ⊢
        exact h j hj

theorem lockInv_foldl {n : Nat} (l : List (Fin n)) (s : SyncDomain n)
    (h : lockInv s) : lockInv (l.foldl locStep s) := by
  induction l generalizing s with
  | nil => simpa using h
  | cons a l ih => exact ih _ (lockInv_locStep s a h)

theorem lockInv_locTick {n : Nat} (s : SyncDomain n) (h : lockInv s) :
    lockInv (locTick s) :=
  lockInv_foldl _ s h

theorem lockInv_reach {n : Nat} (s : SyncDomain n) (h : locReach s) :
    lockInv s := by
  obtain ⟨k, rfl⟩ := h
  induction k with
  | zero => intro i hi; simp [locInit] at hi
  | succ k ih =>
      rw [Function.iterate_succ_apply']
      exact lockInv_locTick _ ih

/-- Sanity vectors: the embedding of `_asmReaderFormatLine` reproduces the
unit tests of `cpu.py` that actually pass on the source (examples 357-361
and the blank inputs; the remaining asserts in the source file fail on the
code itself). -/
theorem formatLine_unit_vectors :
    asmReaderFormatLine "nop".toList = "NOP".toList ∧
    asmReaderFormatLine "   nop".toList = "NOP".toList ∧
    asmReaderFormatLine " noP   ".toList = "NOP".toList ∧
    asmReaderFormatLine "MoV w1,   w2".toList = "MOV W1, W2".toList ∧
    asmReaderFormatLine "MoV w4,w6".toList = "MOV W4, W6".toList ∧
    asmReaderFormatLine " ".toList = [] ∧
    asmReaderFormatLine [] = [] :=
  ⟨by decide, by decide, by decide, by decide, by decide, by decide, rfl⟩

/-- C1: the claim says every registry mnemonic decodes to an Instruction
whose `mnemonic` equals the input with the §4.2 cycle counts.  In the
code, `__init_NOP` assigns mnemonic `"MOV"` (not `"NOP"`), `__init_MOV`
always assigns 2 cycles (no 1-cycle register-only variant), the key
`"ADD"` (like SUB, SCTX, RCTX, LOC, MEET, RESET) has no initializer
method at all, and consequently constructing any `Instruction` raises
`AttributeError` while building the registry. -/
theorem instructionSet_decode_diverges :
    initMethod "NOP" = some ("MOV", 1, 0) ∧ ("MOV" : String) ≠ "NOP" ∧
    initMethod "MOV" = some ("MOV", 2, 0) ∧
    "ADD" ∈ instructionSetKeys ∧ initMethod "ADD" = none ∧
    instructionNew "NOP".toList = .error (.attrError "__init_ADD") :=
  ⟨rfl, by decide, rfl, by decide, rfl, rfl⟩

/-- C2: the claim says `_asmReaderFormatLine` is idempotent on the allowed
alphabet.  On the in-alphabet line `"a ,b c"` a first normalization gives
`"A , B C"` but a second gives `"A , BC"`: the space inserted after the
comma does not consume the space quota, so a stray space survives pass one
and is eaten by pass two. -/
theorem formatLine_not_idempotent :
    asmReaderFormatLine "a ,b c".toList = "A , B C".toList ∧
    asmReaderFormatLine (asmReaderFormatLine "a ,b c".toList) = "A , BC".toList ∧
    asmReaderFormatLine (asmReaderFormatLine "a ,b c".toList) ≠
      asmReaderFormatLine "a ,b c".toList :=
  ⟨by decide, by decide, by decide⟩

/-- C3: on a non-trapped core, `_setPC` with a target outside
`[0, INSTRUCTION_MEM_SIZE)` traps and leaves the PC unchanged, and with a
target inside the range commits the PC and stays untrapped.  (The source
guard compares against `DATA_MEM_SIZE`, which equals
`INSTRUCTION_MEM_SIZE = 1024`.) -/
theorem setPC_range_spec (s : Cpu) (newPC : Int) (h : s.isTrapped = false) :
    ((newPC < 0 ∨ (INSTRUCTION_MEM_SIZE : Int) ≤ newPC) →
      (setPC s newPC).isTrapped = true ∧ (setPC s newPC).PC = s.PC) ∧
    ((0 ≤ newPC ∧ newPC < (INSTRUCTION_MEM_SIZE : Int)) →
      (setPC s newPC).PC = newPC ∧ (setPC s newPC).isTrapped = false) := by
  constructor
  · intro hout
    have hcond : newPC < 0 ∨ (DATA_MEM_SIZE : Int) ≤ newPC := by
      rcases hout with h1 | h1
      · exact Or.inl h1
      · right
        simp only [INSTRUCTION_MEM_SIZE] at h1
        simpa [DATA_MEM_SIZE] using h1
    simp [setPC, trapPcOutOfRange, h, hcond]
  · intro hin
    have hcond : ¬(newPC < 0 ∨ (DATA_MEM_SIZE : Int) ≤ newPC) := by
      push_neg
      refine ⟨hin.1, ?_⟩
      have h2 := hin.2
      simp only [INSTRUCTION_MEM_SIZE] at h2
      simpa [DATA_MEM_SIZE] using h2
    simp [setPC, h, hcond]

/-- Witness for C3: on the fresh core, `_setPC 2000` traps with the PC
still 0, while `_setPC 5` commits PC 5 without trapping. -/
theorem setPC_range_spec_inst :
    ((setPC cpuInit 2000).isTrapped = true ∧ (setPC cpuInit 2000).PC = cpuInit.PC) ∧
    ((setPC cpuInit 5).PC = 5 ∧ (setPC cpuInit 5).isTrapped = false) :=
  ⟨(setPC_range_spec cpuInit 2000 rfl).1 (by norm_num [INSTRUCTION_MEM_SIZE]),
   (setPC_range_spec cpuInit 5 rfl).2 (by norm_num [INSTRUCTION_MEM_SIZE])⟩

/-- C4: the claim says that on a trapped core `step()` is a raise-free
no-op.  In the code, every `step()` call — trapped or not — executes
`instr = instruction.fromStr("NOP")`, passing one argument to the
two-parameter `fromStr`, so Python raises `TypeError`; the architectural
state is indeed left unchanged, but the call raises. -/
theorem step_trapped_raises :
    (step { cpuInit with isTrapped := true }).err = some (.typeErr "fromStr") ∧
    (step { cpuInit with isTrapped := true }).state = { cpuInit with isTrapped := true } :=
  ⟨rfl, rfl⟩

/-- C5: the claim says `reset()` establishes `PC = resetAddr`, zeroed `W`,
empty stack, `isTrapped = false` and `statReg = 0`.  In the code,
`reset()` reads the nonexistent attribute `startAddr` and raises
`AttributeError` before mutating anything: on the sample trapped core the
state keeps `statReg = 7`, `PC = 5 ≠ resetAddr` and stays trapped (and the
written body would not clear `statReg` even if it ran). -/
theorem reset_raises_attrError :
    reset cpuSample = ⟨cpuSample, some (.attrError "startAddr")⟩ ∧
    (reset cpuSample).state.statReg ≠ 0 ∧
    (reset cpuSample).state.PC ≠ cpuSample.resetAddr ∧
    (reset cpuSample).state.isTrapped = true :=
  ⟨rfl, by decide, by decide, rfl⟩

/-- C6: `reset()` leaves `nCyclesLost` unchanged — the method body never
mentions the field, and the `AttributeError` it raises propagates before
any mutation, so on every core the statistic survives the call. -/
theorem reset_preserves_nCyclesLost (s : Cpu) :
    (reset s).state.nCyclesLost = s.nCyclesLost := rfl

/-- C7: the claim says the parser returns the five fields for every line
over the allowed alphabet.  In the code, `_asmReaderParse` raises
`AttributeError` on every nonempty line (its helpers are module-level
functions, not attributes of class `Instruction`, and its FSM names the
undeclared member `fsmState.ARG`), and the empty line returns a 4-tuple
with no mnemonic slot rather than five fields. -/
theorem asmReaderParse_crashes :
    asmReaderParse "NOP".toList = .error (.attrError "_asmReaderIsDigit") ∧
    asmReaderParse "  ".toList = .error (.attrError "_asmReaderIsDigit") ∧
    asmReaderParse [] = .ok (.quad [] [] [] []) :=
  ⟨rfl, rfl, rfl⟩

/-- C8: the claim says the accepted alphabet includes `;`, `:`, `.` and
whitespace, and that in-alphabet lines are not rejected on character
grounds.  In the code, `_decode`'s filter rejects spaces, `;`, `:` and
`.`; `_asmReaderSyntaxCheck` rejects `;`; and a fully in-alphabet line
makes `_asmReaderSyntaxCheck` fall off its end returning Python `None`
(falsy), never `True`. -/
theorem charFilter_rejects_allowed :
    decodeCharOk ' ' = false ∧ decodeCharOk ';' = false ∧
    decodeCharOk ':' = false ∧ decodeCharOk 'a' = true ∧
    asmReaderSyntaxCheck [';'] = some false ∧
    asmReaderSyntaxCheck "NOP".toList = none :=
  ⟨by decide, by decide, by decide, by decide, by decide, by decide⟩

/-- C9: mutual exclusion for LOC — in every Synchronization Domain state
reachable by whole ticks from the initial state, at most one core reports
holding the lock: any two cores reporting acquisition are equal.  (The LOC
handlers are absent from the sources; the lock domain is modelled from the
spec.) -/
theorem loc_mutual_exclusion {n : Nat} (s : SyncDomain n) (h : locReach s)
    (i j : Fin n) (hi : s.acquired i = true) (hj : s.acquired j = true) :
    i = j := by
  have hinv := lockInv_reach s h
  exact Option.some.inj ((hinv i hi).symm.trans (hinv j hj))

/-- Witness for C9: with two cores, after one tick core 0 has acquired the
lock, and the mutual-exclusion theorem applies to that reachable state. -/
theorem loc_mutual_exclusion_inst :
    (locTick (locInit 2)).acquired 0 = true ∧ ((0 : Fin 2) = 0) :=
  ⟨by decide,
   loc_mutual_exclusion (locTick (locInit 2)) ⟨1, rfl⟩ 0 0 (by decide) (by decide)⟩

/-- C10: once `isTrapped` is set, `_setPC` and `_pcJump` leave the whole
core state unchanged, whatever the requested target — the body of
`_setPC` is guarded by `if not(self.isTrapped)`. -/
theorem setPC_trapped_frozen (s : Cpu) (newPC delta : Int)
    (h : s.isTrapped = true) :
    setPC s newPC = s ∧ pcJump s delta = s := by
  constructor <;> simp [setPC, pcJump, h]

/-- Witness for C10: on a trapped core, `_setPC 5` (an in-range target)
and `_pcJump 3` both leave the state untouched. -/
theorem setPC_trapped_frozen_inst :
    setPC { cpuInit with isTrapped := true } 5 = { cpuInit with isTrapped := true } ∧
    pcJump { cpuInit with isTrapped := true } 3 = { cpuInit with isTrapped := true } :=
  setPC_trapped_frozen { cpuInit with isTrapped := true } 5 3 rfl

end PsyCore
